import Mathlib

/-!
# Verification of the prom-label-proxy query-middleware core

A shallow embedding of the `querymw` package: the request model and
`QueryOptions` serialisation, the `Observer` metrics stage, the `Jitterer`
stage, the `Exit` stage, the `Config` validation, the strict router's
registration rule, and (modelled from the spec, since `backpressure.go`
itself is not among the provided sources) the AIMD backpressure controller.

Go conventions are embedded as follows: a value `error` becomes
`Option GoError` (`none` = nil); a computation that can panic (nil-pointer
dereference, `rand.Intn` on a non-positive bound) returns `Option` with
`none` meaning the panic; `time.Duration` is `Int` (int64 nanoseconds);
`url.Values` mutation by `Add` is an append-only association list.
-/

/-- `RequestBlockedError` from the `querymw` package: a structured error
carrying the middleware type tag of the stage that refused the request. -/
structure RequestBlockedError where
  type : String
deriving DecidableEq

/-- A Go `error` value that is either the `*RequestBlockedError` variant or
some other (downstream / transport) error. -/
inductive GoError where
  | blocked (e : RequestBlockedError)
  | other (msg : String)
deriving DecidableEq

/-- `QueryOptions` from `querymw.go`: the bag of passthrough flags. HTTP
headers are modelled as an association list of key/value pairs. -/
structure QueryOptions where
  doNotAddThanosParams : Bool
  deduplicate : Bool
  partialResponse : Bool
  method : String
  maxSourceResolution : String
  engine : String
  httpHeaders : List (String × String)
deriving DecidableEq

/-- `strconv.FormatBool`: lower-case stringification of a boolean. -/
def formatBool (b : Bool) : String :=
  if b then "true" else "false"

/-- `QueryOptions.AddTo` from `querymw.go`: appends the emitted query
parameters to the given `url.Values` (modelled as an append-only list of
key/value pairs). The Go method also returns an `error` that is constantly
nil; that return value is omitted here. -/
def QueryOptions.addTo (p : QueryOptions) (values : List (String × String)) :
    List (String × String) :=
  let values := values ++ [("dedup", formatBool p.deduplicate)]
  let values :=
    if p.maxSourceResolution ≠ "" then
      values ++ [("max_source_resolution", p.maxSourceResolution)]
    else
      values
  let values := values ++ [("engine", p.engine)]
  values ++ [("partial_response", formatBool p.partialResponse)]

/-- An outbound `*http.Request`; never actually constructed by the embedded
code (`requestFromInstant` / `requestFromRange` always return nil). -/
structure HttpRequest where
  method : String
  url : String

/-- `InstantRequest` from `querymw.go`, keeping the data fields relevant to
the pipeline stages (the captured `http.Handler` and `ResponseWriter` are
modelled at the `Exit` stage by recording the invocation instead). -/
structure InstantRequest where
  query : String
  opts : QueryOptions
  time : Int

/-- `RangeRequest` from `querymw.go`. -/
structure RangeRequest where
  query : String
  opts : QueryOptions
  start : Int
  stop : Int
  step : Int

/-- `requestFromInstant` from the request-model file: always returns
`(nil, nil)`. -/
def requestFromInstant (_req : InstantRequest) : Option HttpRequest × Option GoError :=
  (none, none)

/-- `requestFromRange` from the request-model file: always returns
`(nil, nil)`. -/
def requestFromRange (_req : RangeRequest) : Option HttpRequest × Option GoError :=
  (none, none)

/-- `Exit.QueryInstant`: re-encode the typed request and invoke the
downstream handler. The result records the returned error and, when the
handler was invoked, the `*http.Request` argument it received (`some r`);
`none` in the second component means the handler was never invoked. -/
def Exit.queryInstant (req : InstantRequest) :
    Option GoError × Option (Option HttpRequest) :=
  match requestFromInstant req with
  | (_, some err) => (some err, none)
  | (r, none) => (none, some r)

/-- `Exit.QueryRange`: same shape as `Exit.queryInstant`. -/
def Exit.queryRange (req : RangeRequest) :
    Option GoError × Option (Option HttpRequest) :=
  match requestFromRange req with
  | (_, some err) => (some err, none)
  | (r, none) => (none, some r)

/-- The four Observer counter vectors, each keyed by its label values:
`query_type` for error/request/latency, `query_type × mw_type` for blocks. -/
structure ObserverMetrics where
  errCount : String → Nat
  blockCount : String → String → Nat
  reqCount : String → Nat
  latencyMs : String → Nat

/-- Increment a single-label counter vector at one label value. -/
def bumpAt (f : String → Nat) (k : String) (n : Nat) : String → Nat :=
  fun x => if x = k then f x + n else f x

/-- Increment a two-label counter vector at one pair of label values. -/
def bumpAt2 (f : String → String → Nat) (k1 k2 : String) : String → String → Nat :=
  fun x y => if x = k1 ∧ y = k2 then f x y + 1 else f x y

/-- `errors.As(err, &blocked)` for the target type `*RequestBlockedError`:
returns the matched error when the chain contains that variant, otherwise
leaves the target pointer nil. -/
def errorsAsBlocked : Option GoError → Option RequestBlockedError
  | some (GoError.blocked b) => some b
  | _ => none

/-- Dereference a `*RequestBlockedError` pointer for its `Type` field;
`none` is the nil-pointer-dereference panic. -/
def derefBlockedType : Option RequestBlockedError → Option String
  | none => none
  | some b => some b.type

/-- `Observer.handleMetrics` from `observer.go`, verbatim in structure: when
the error is non-nil, the source tests `!errors.As(err, &blocked)` and in
that branch reads `blocked.Type` (a nil pointer there), otherwise bumps the
error counter; afterwards the request counter and latency are updated.
`none` models the panic. -/
def Observer.handleMetrics (err : Option GoError) (latMs : Nat)
    (queryType : String) (m : ObserverMetrics) : Option ObserverMetrics :=
  let afterErr : Option ObserverMetrics :=
    match err with
    | none => some m
    | some _ =>
      let blocked := errorsAsBlocked err
      if ! blocked.isSome then
        match derefBlockedType blocked with
        | none => none
        | some t => some { m with blockCount := bumpAt2 m.blockCount queryType t }
      else
        some { m with errCount := bumpAt m.errCount queryType 1 }
  match afterErr with
  | none => none
  | some m1 =>
      some { m1 with
              reqCount := bumpAt m1.reqCount queryType 1,
              latencyMs := bumpAt m1.latencyMs queryType latMs }

/-- `Observer.QueryInstant`: delegate, then record metrics with the measured
latency; the delegated error is returned unchanged. `none` models a panic
escaping from `handleMetrics`. -/
def Observer.queryInstant (client : InstantRequest → Option GoError)
    (latMs : Nat) (m : ObserverMetrics) (r : InstantRequest) :
    Option (Option GoError × ObserverMetrics) :=
  let err := client r
  match Observer.handleMetrics err latMs "instant" m with
  | none => none
  | some m2 => some (err, m2)

/-- `Observer.QueryRange`: same shape with the `"range"` label. -/
def Observer.queryRange (client : RangeRequest → Option GoError)
    (latMs : Nat) (m : ObserverMetrics) (r : RangeRequest) :
    Option (Option GoError × ObserverMetrics) :=
  let err := client r
  match Observer.handleMetrics err latMs "range" m with
  | none => none
  | some m2 => some (err, m2)

/-- A metrics state with every counter at zero. -/
def zeroMetrics : ObserverMetrics :=
  { errCount := fun _ => 0
    blockCount := fun _ _ => 0
    reqCount := fun _ => 0
    latencyMs := fun _ => 0 }

/-- `Jitterer.sleep` from the jitter file: returns the number of nanoseconds
slept; `none` is the panic of `rand.Intn` on a non-positive bound. The
pseudo-random source is the parameter `randIntn`. -/
def Jitterer.sleep (delay : Int) (randIntn : Int → Int) : Option Int :=
  if delay = 0 then some 0
  else if delay ≤ 0 then none
  else some (randIntn delay)

/-- `Jitterer.QueryInstant`: sleep for the jitter, then delegate. The result
pairs the slept duration with the delegated call's result; `none` is the
`rand.Intn` panic. -/
def Jitterer.queryInstant (delay : Int) (randIntn : Int → Int)
    (client : InstantRequest → Option GoError) (r : InstantRequest) :
    Option (Int × Option GoError) :=
  match Jitterer.sleep delay randIntn with
  | none => none
  | some t => some (t, client r)

/-- `Jitterer.QueryRange`: same shape as `Jitterer.queryInstant`. -/
def Jitterer.queryRange (delay : Int) (randIntn : Int → Int)
    (client : RangeRequest → Option GoError) (r : RangeRequest) :
    Option (Int × Option GoError) :=
  match Jitterer.sleep delay randIntn with
  | none => none
  | some t => some (t, client r)

/-- Modelled from the spec: the congestion state of the Backpressure stage.
`backpressure.go` itself is not among the provided sources (only its tests
in `backpressure_test.go` and its callers are), so the state follows §4.E of
the spec: static bounds `min`/`max`, the current ceiling `watermark`, and
the in-flight counter `active`. -/
structure Backpressure where
  min : Nat
  max : Nat
  watermark : Nat
  active : Nat
deriving DecidableEq

/-- Modelled from the spec: one sequential request through the Backpressure
admission gate (§4.E of the spec; `backpressure.go` is missing from the
sources). If `active ≥ watermark` the request is refused with
`RequestBlockedError{Type:"backpressure"}` and nothing changes; otherwise
`active` is incremented, the delegated call (whose result is the parameter
`downstream`) runs, and on completion `active` is decremented and the AIMD
rule is applied: additive increase on success, multiplicative decrease with
floor on a downstream error. The `Bool` records whether the delegated stage
was invoked. -/
def Backpressure.query (bp : Backpressure) (downstream : Option GoError) :
    Option GoError × Backpressure × Bool :=
  if bp.watermark ≤ bp.active then
    (some (GoError.blocked ⟨"backpressure"⟩), bp, false)
  else
    let admitted : Backpressure := { bp with active := bp.active + 1 }
    let completed : Backpressure := { admitted with active := admitted.active - 1 }
    match downstream with
    | none =>
        (none,
         { completed with watermark := Min.min completed.max (completed.watermark + 1) },
         true)
    | some e =>
        (some e,
         { completed with watermark := Max.max completed.min (completed.watermark / 2) },
         true)

/-- `N` sequential requests whose delegated calls all succeed. -/
def Backpressure.successStreak (bp : Backpressure) : Nat → Backpressure
  | 0 => bp
  | n + 1 => Backpressure.successStreak (bp.query none).2.1 n

/-- `N` sequential requests whose delegated calls all fail with `e`. -/
def Backpressure.errorStreak (e : GoError) (bp : Backpressure) : Nat → Backpressure
  | 0 => bp
  | n + 1 => Backpressure.errorStreak e (bp.query (some e)).2.1 n

/-- The distinct configuration errors of `Config.Validate` (declared in the
package's errors file; the constructors carry the offending input where the
Go error wraps one). -/
inductive ConfigError where
  | jitterDelayRequired
  | backpressureQueryRequired
  | promqlParse (q : String)
  | backpressureURLRequired
  | urlParse (u : String)
  | congestionWindowMinBelowOne
  | congestionWindowMaxBelowMin
  | registryRequired
deriving DecidableEq

/-- `Config` from `querymw.go`. `jitterDelay` is a `time.Duration`
(int64 nanoseconds), hence `Int`; the observer registry pointer is modelled
by its nil-ness. -/
structure Config where
  enableBackpressure : Bool
  backpressureMonitoringURL : String
  backpressureQueries : List String
  congestionWindowMin : Int
  congestionWindowMax : Int
  enableJitter : Bool
  jitterDelay : Int
  enableObserver : Bool
  observerRegistryPresent : Bool

/-- The backpressure block of `Config.Validate`, in source order. The PromQL
parser and `url.Parse` are external collaborators, passed in as predicates
saying which inputs they accept. Returns the first error, `none` on
success. -/
def Config.validateBackpressure (parseExprOk : String → Bool)
    (urlParseOk : String → Bool) (c : Config) : Option ConfigError :=
  if c.backpressureQueries.length = 0 then
    some ConfigError.backpressureQueryRequired
  else
    match c.backpressureQueries.find? (fun q => ! parseExprOk q) with
    | some q => some (ConfigError.promqlParse q)
    | none =>
        if c.backpressureMonitoringURL = "" then
          some ConfigError.backpressureURLRequired
        else if ! urlParseOk c.backpressureMonitoringURL then
          some (ConfigError.urlParse c.backpressureMonitoringURL)
        else if c.congestionWindowMin < 1 then
          some ConfigError.congestionWindowMinBelowOne
        else if c.congestionWindowMax < c.congestionWindowMin then
          some ConfigError.congestionWindowMaxBelowMin
        else
          none

/-- `Config.Validate` from `querymw.go`: jitter check first (rejecting a
zero delay when jitter is enabled), then the backpressure block when
backpressure is enabled, then the observer registry check. -/
def Config.validate (parseExprOk : String → Bool) (urlParseOk : String → Bool)
    (c : Config) : Option ConfigError :=
  if c.enableJitter ∧ c.jitterDelay = 0 then
    some ConfigError.jitterDelayRequired
  else
    match (if c.enableBackpressure then
             Config.validateBackpressure parseExprOk urlParseOk c
           else none) with
    | some e => some e
    | none =>
        if c.enableObserver ∧ ¬ c.observerRegistryPresent then
          some ConfigError.registryRequired
        else
          none

/-- `strings.HasPrefix s p`, character-for-character on the underlying
character list. -/
def hasPrefixB (s p : String) : Bool :=
  p.data.isPrefixOf s.data

/-- The sanitisation loop of `strictMux.Handle`: the Go loop header
evaluates `strings.TrimSuffix` once in its init statement, so exactly one
trailing slash is removed when present. -/
def sanitizePattern (s : String) : String :=
  if s.data.getLast? = some '/' then String.mk s.data.dropLast else s

/-- The registration errors of `strictMux.Handle`. -/
inductive HandleError where
  | alreadyRegistered (p : String)
  | sharesPath (registered pat : String)
deriving DecidableEq

/-- `strictMux.Handle` from the router file: sanitise, refuse a pattern that
was already registered, refuse a pattern `sanitized` such that some
registered `p` satisfies `strings.HasPrefix(sanitized+"/", p+"/")`, else
record the pattern as seen. The `seen` set is an insertion list; success
returns the updated list. -/
def strictHandle (seen : List String) (pattern : String) :
    Except HandleError (List String) :=
  let sanitized := sanitizePattern pattern
  if sanitized ∈ seen then
    Except.error (HandleError.alreadyRegistered sanitized)
  else
    match seen.find? (fun p => hasPrefixB (sanitized ++ "/") (p ++ "/")) with
    | some p => Except.error (HandleError.sharesPath p sanitized)
    | none => Except.ok (sanitized :: seen)

/-- A sample option bag for witnesses. -/
def sampleOpts : QueryOptions :=
  { doNotAddThanosParams := false, deduplicate := false, partialResponse := false,
    method := "", maxSourceResolution := "", engine := "", httpHeaders := [] }

/-- A sample instant request for witnesses. -/
def sampleInstant : InstantRequest :=
  { query := "up", opts := sampleOpts, time := 0 }

/-- A sample range request for witnesses. -/
def sampleRange : RangeRequest :=
  { query := "up", opts := sampleOpts, start := 0, stop := 1, step := 1 }

/-- An option bag carrying a method override and an HTTP header override but
an empty max-source-resolution. -/
def methodOpts : QueryOptions :=
  { doNotAddThanosParams := false, deduplicate := false, partialResponse := false,
    method := "POST", maxSourceResolution := "", engine := "",
    httpHeaders := [("X-Trace", "on")] }

/-- A configuration with the jitter stage enabled and a negative delay, all
other stages disabled. -/
def negJitterConfig : Config :=
  { enableBackpressure := false, backpressureMonitoringURL := "",
    backpressureQueries := [], congestionWindowMin := 0, congestionWindowMax := 0,
    enableJitter := true, jitterDelay := -1,
    enableObserver := false, observerRegistryPresent := false }

lemma backpressure_query_success (mn mx w : Nat) (h : 1 ≤ w) :
    Backpressure.query ⟨mn, mx, w, 0⟩ none =
      (none, ⟨mn, mx, min mx (w + 1), 0⟩, true) := by
  simp [Backpressure.query, show ¬ (w ≤ 0) by omega]

lemma backpressure_query_error (mn mx w : Nat) (e : GoError) (h : 1 ≤ w) :
    Backpressure.query ⟨mn, mx, w, 0⟩ (some e) =
      (some e, ⟨mn, mx, max mn (w / 2), 0⟩, true) := by
  simp [Backpressure.query, show ¬ (w ≤ 0) by omega]

lemma backpressure_success_streak_aux (mn mx : Nat) (hmn : 1 ≤ mn) :
    ∀ (N w : Nat), mn ≤ w → w ≤ mx →
      Backpressure.successStreak ⟨mn, mx, w, 0⟩ N = ⟨mn, mx, min mx (w + N), 0⟩
  | 0, w, hlo, hhi => by
      simp only [Backpressure.successStreak, Backpressure.mk.injEq]
      refine ⟨trivial, trivial, ?_, trivial⟩
      omega
  | N + 1, w, hlo, hhi => by
      rw [Backpressure.successStreak,
        backpressure_query_success mn mx w (le_trans hmn hlo),
        backpressure_success_streak_aux mn mx hmn N (min mx (w + 1))
          (by omega) (by omega)]
      simp only [Backpressure.mk.injEq]
      refine ⟨trivial, trivial, ?_, trivial⟩
      omega

lemma backpressure_error_streak_aux (mn mx : Nat) (e : GoError) (hmn : 1 ≤ mn) :
    ∀ (k w : Nat), mn ≤ w →
      Backpressure.errorStreak e ⟨mn, mx, w, 0⟩ k =
        ⟨mn, mx, max mn (w / 2 ^ k), 0⟩
  | 0, w, hlo => by
      simp only [Backpressure.errorStreak, pow_zero, Nat.div_one,
        Backpressure.mk.injEq]
      refine ⟨trivial, trivial, ?_, trivial⟩
      omega
  | k + 1, w, hlo => by
      have hdd : w / 2 / 2 ^ k = w / 2 ^ (k + 1) := by
        rw [Nat.div_div_eq_div_mul, pow_succ, Nat.mul_comm]
      have hkey : max mn (max mn (w / 2) / 2 ^ k) = max mn (w / 2 ^ (k + 1)) := by
        rcases le_or_lt mn (w / 2) with h1 | h1
        · rw [max_eq_right h1, hdd]
        · have h2 : w / 2 ^ (k + 1) ≤ w / 2 := by
            rw [← hdd]; exact Nat.div_le_self _ _
          rw [max_eq_left (Nat.le_of_lt h1),
            max_eq_left (Nat.div_le_self mn (2 ^ k)),
            max_eq_left (Nat.le_of_lt (Nat.lt_of_le_of_lt h2 h1))]
      rw [Backpressure.errorStreak,
        backpressure_query_error mn mx w e (le_trans hmn hlo),
        backpressure_error_streak_aux mn mx e hmn k (max mn (w / 2))
          (Nat.le_max_left _ _), hkey]

/-- Claim C1: AIMD additive increase on success. Starting from any watermark
`w` with `min ≤ w ≤ max` and no traffic in flight, a single request whose
delegated call succeeds completes with `watermark = min(max, w + 1)` and
`active = 0`, and a streak of `N` sequential successful requests leaves
`watermark = min(max, w + N)` and `active = 0`. -/
theorem backpressure_success_streak_law (mn mx w N : Nat)
    (hmn : 1 ≤ mn) (hlo : mn ≤ w) (hhi : w ≤ mx) :
    Backpressure.query ⟨mn, mx, w, 0⟩ none =
      (none, ⟨mn, mx, min mx (w + 1), 0⟩, true) ∧
    Backpressure.successStreak ⟨mn, mx, w, 0⟩ N = ⟨mn, mx, min mx (w + N), 0⟩ ∧
    (Backpressure.successStreak ⟨mn, mx, w, 0⟩ N).active = 0 := by
  refine ⟨backpressure_query_success mn mx w (le_trans hmn hlo), ?_, ?_⟩ <;>
    rw [backpressure_success_streak_aux mn mx hmn N w hlo hhi]

/-- Witness for C1, mirroring `TestBackpressureEdgeCases`: `min = 1`,
`max = 10`, five sequential successes from `watermark = 1` end with
`watermark = 6` and `active = 0`. -/
theorem backpressure_success_streak_law_witness :
    Backpressure.query ⟨1, 10, 1, 0⟩ none =
      (none, ⟨1, 10, min 10 (1 + 1), 0⟩, true) ∧
    Backpressure.successStreak ⟨1, 10, 1, 0⟩ 5 = ⟨1, 10, min 10 (1 + 5), 0⟩ ∧
    (Backpressure.successStreak ⟨1, 10, 1, 0⟩ 5).active = 0 :=
  backpressure_success_streak_law 1 10 1 5 (by decide) (by decide) (by decide)

/-- Claim C2: AIMD multiplicative decrease with floor. From any watermark
`w ≥ min ≥ 1` with no traffic in flight, a request whose delegated call
fails completes with `watermark = max(min, ⌊w / 2⌋)`; after any number of
repeated error outcomes the watermark never drops below `min`, and after
`w` of them it has reached exactly `min`. -/
theorem backpressure_error_decrease_law (mn mx w : Nat) (e : GoError)
    (hmn : 1 ≤ mn) (hlo : mn ≤ w) :
    Backpressure.query ⟨mn, mx, w, 0⟩ (some e) =
      (some e, ⟨mn, mx, max mn (w / 2), 0⟩, true) ∧
    (∀ k, mn ≤ (Backpressure.errorStreak e ⟨mn, mx, w, 0⟩ k).watermark) ∧
    Backpressure.errorStreak e ⟨mn, mx, w, 0⟩ w = ⟨mn, mx, mn, 0⟩ := by
  refine ⟨backpressure_query_error mn mx w e (le_trans hmn hlo), ?_, ?_⟩
  · intro k
    rw [backpressure_error_streak_aux mn mx e hmn k w hlo]
    exact Nat.le_max_left _ _
  · rw [backpressure_error_streak_aux mn mx e hmn w w hlo,
      Nat.div_eq_of_lt (Nat.lt_two_pow w),
      max_eq_left (Nat.zero_le mn)]

/-- Witness for C2, mirroring `TestBackpressureEdgeCases`: from
`watermark = 6` with `min = 1`, one error halves the watermark to 3, the
floor `min = 1` is never violated, and six errors pin it at 1. -/
theorem backpressure_error_decrease_law_witness :
    Backpressure.query ⟨1, 10, 6, 0⟩ (some (GoError.other "fail")) =
      (some (GoError.other "fail"), ⟨1, 10, max 1 (6 / 2), 0⟩, true) ∧
    (∀ k, 1 ≤ (Backpressure.errorStreak (GoError.other "fail") ⟨1, 10, 6, 0⟩ k).watermark) ∧
    Backpressure.errorStreak (GoError.other "fail") ⟨1, 10, 6, 0⟩ 6 = ⟨1, 10, 1, 0⟩ :=
  backpressure_error_decrease_law 1 10 6 (GoError.other "fail") (by decide) (by decide)

/-- Claim C3: admission refusal is fail-fast and atomic. When
`active ≥ watermark`, the stage returns `RequestBlockedError{Type:"backpressure"}`
without invoking the delegated stage and with the whole congestion state
(including `active` and `watermark`) unchanged; an Observer wrapped around
such a call returns the refusal error unmodified. -/
theorem backpressure_refusal_law (bp : Backpressure) (downstream : Option GoError)
    (h : bp.watermark ≤ bp.active) :
    bp.query downstream = (some (GoError.blocked ⟨"backpressure"⟩), bp, false) ∧
    (∀ (latMs : Nat) (m : ObserverMetrics) (r : InstantRequest),
      (Observer.queryInstant (fun _ => (bp.query downstream).1) latMs m r).map Prod.fst =
        some (some (GoError.blocked ⟨"backpressure"⟩))) := by
  have hq : bp.query downstream = (some (GoError.blocked ⟨"backpressure"⟩), bp, false) := by
    simp [Backpressure.query, h]
  refine ⟨hq, fun latMs m r => ?_⟩
  simp [hq, Observer.queryInstant, Observer.handleMetrics, errorsAsBlocked]

/-- Witness for C3: with `watermark = 1` and one request already in flight,
a second request is refused with the `"backpressure"` tag, the state is
untouched, and the refusal passes through the Observer unmodified. -/
theorem backpressure_refusal_law_witness :
    Backpressure.query ⟨1, 10, 1, 1⟩ none =
      (some (GoError.blocked ⟨"backpressure"⟩), ⟨1, 10, 1, 1⟩, false) ∧
    (∀ (latMs : Nat) (m : ObserverMetrics) (r : InstantRequest),
      (Observer.queryInstant (fun _ => (Backpressure.query ⟨1, 10, 1, 1⟩ none).1) latMs m r).map Prod.fst =
        some (some (GoError.blocked ⟨"backpressure"⟩))) :=
  backpressure_refusal_law ⟨1, 10, 1, 1⟩ none (by decide)

/-- Claim C4 (code bug, evaluated at the failing input): when the delegated
call returns a `RequestBlockedError{Type:"backpressure"}`, `handleMetrics`
increments `querymw_error_count` and leaves `querymw_block_count` untouched
(the request counter still fires) — the opposite of the specified
discrimination, because the `errors.As` test in `observer.go` is negated. -/
theorem observer_blocked_error_miscounted :
    (Observer.handleMetrics (some (GoError.blocked ⟨"backpressure"⟩)) 7 "instant"
        zeroMetrics).map
      (fun m => (m.errCount "instant", m.blockCount "instant" "backpressure",
        m.reqCount "instant", m.latencyMs "instant")) = some (1, 0, 1, 7) := by
  decide

/-- Helper for C5: the shared-prefix check of `strictMux.Handle` is not
symmetric — if `p+"/"` is a strict prefix of `q+"/"`, then `q+"/"` is not a
prefix of `p+"/"`. -/
lemma hasPrefixB_asymm {p q : String}
    (hpre : hasPrefixB (q ++ "/") (p ++ "/") = true) (hne : p ≠ q) :
    hasPrefixB (p ++ "/") (q ++ "/") = false := by
  rw [Bool.eq_false_iff]
  intro hcon
  rw [hasPrefixB, List.isPrefixOf_iff_prefix] at hpre hcon
  have hlists : (q ++ "/").data = (p ++ "/").data :=
    hcon.eq_of_length_le hpre.length_le
  apply hne
  apply String.ext
  rw [String.data_append, String.data_append] at hlists
  exact List.append_cancel_right hlists.symm

/-- Counterexample to claim C5 as stated: the patterns `/a` and `/a/b`
overlap under `/`-delimited prefixing, and registering `/a/b` first does
reject a subsequent `/a/b`-style child — yet registering `/a` second, after
`/a/b`, succeeds, so the rejection is not order-independent. -/
theorem strict_router_overlap_order_counterexample :
    hasPrefixB ("/a/b" ++ "/") ("/a" ++ "/") = true ∧
    strictHandle ["/a/b"] "/a" = Except.ok ["/a", "/a/b"] :=
  ⟨by decide, rfl⟩

/-- Claim C5 as amended: overlap rejection is one-directional. For distinct
slash-normalised patterns `p` and `q` with `p` a `/`-delimited ancestor of
`q`, registering `q` after `p` fails with the shared-path error, while
registering `p` after `q` succeeds. -/
theorem strict_router_order_dependent (p q : String)
    (hp : sanitizePattern p = p) (hq : sanitizePattern q = q)
    (hpre : hasPrefixB (q ++ "/") (p ++ "/") = true) (hne : p ≠ q) :
    strictHandle [p] q = Except.error (HandleError.sharesPath p q) ∧
    strictHandle [q] p = Except.ok [p, q] := by
  constructor
  · simp only [strictHandle, hq, List.mem_singleton]
    rw [if_neg (Ne.symm hne)]
    simp only [List.find?_cons, List.find?_nil, hpre]
  · simp only [strictHandle, hp, List.mem_singleton]
    rw [if_neg hne]
    simp only [List.find?_cons, List.find?_nil, hasPrefixB_asymm hpre hne]

/-- Witness for the amended C5 at `p = "/a"`, `q = "/a/b"`. -/
theorem strict_router_order_dependent_witness :
    strictHandle ["/a"] "/a/b" = Except.error (HandleError.sharesPath "/a" "/a/b") ∧
    strictHandle ["/a/b"] "/a" = Except.ok ["/a", "/a/b"] :=
  strict_router_order_dependent "/a" "/a/b" rfl rfl (by decide) (by decide)

/-- Counterexample to claim C6 as stated: an option bag with a method
override and an HTTP header override serialises to a value list containing
neither of them, so not all passthrough flags are emitted. -/
theorem queryOptions_method_not_emitted :
    methodOpts.method = "POST" ∧
    methodOpts.addTo [] =
      [("dedup", "false"), ("engine", ""), ("partial_response", "false")] ∧
    ("method", "POST") ∉ methodOpts.addTo [] ∧
    ("X-Trace", "on") ∉ methodOpts.addTo [] := by
  refine ⟨rfl, rfl, ?_, ?_⟩ <;> decide

/-- Claim C6 as amended: serialisation always emits `dedup`, `engine` and
`partial_response` (booleans stringified lower-case), emits
`max_source_resolution` exactly when it is non-empty, and emits no other
keys — in particular neither the method nor the HTTP header overrides. -/
theorem queryOptions_addTo_spec (opts : QueryOptions) :
    ("dedup", formatBool opts.deduplicate) ∈ opts.addTo [] ∧
    ("engine", opts.engine) ∈ opts.addTo [] ∧
    ("partial_response", formatBool opts.partialResponse) ∈ opts.addTo [] ∧
    (("max_source_resolution", opts.maxSourceResolution) ∈ opts.addTo [] ↔
      opts.maxSourceResolution ≠ "") ∧
    formatBool true = "true" ∧ formatBool false = "false" ∧
    (opts.addTo []).all (fun kv =>
      kv.1 == "dedup" || kv.1 == "max_source_resolution" ||
      kv.1 == "engine" || kv.1 == "partial_response") = true := by
  by_cases h : opts.maxSourceResolution = "" <;>
    simp [QueryOptions.addTo, h, formatBool]

/-- Witness for the amended C6 at a concrete option bag with a non-empty
max-source-resolution. -/
theorem queryOptions_addTo_spec_witness :
    ("dedup", formatBool (QueryOptions.mk false true false "POST" "5m" "thanos"
        [("X-Trace", "on")]).deduplicate) ∈
      (QueryOptions.mk false true false "POST" "5m" "thanos" [("X-Trace", "on")]).addTo [] ∧
    ("engine", (QueryOptions.mk false true false "POST" "5m" "thanos"
        [("X-Trace", "on")]).engine) ∈
      (QueryOptions.mk false true false "POST" "5m" "thanos" [("X-Trace", "on")]).addTo [] ∧
    ("partial_response", formatBool (QueryOptions.mk false true false "POST" "5m" "thanos"
        [("X-Trace", "on")]).partialResponse) ∈
      (QueryOptions.mk false true false "POST" "5m" "thanos" [("X-Trace", "on")]).addTo [] ∧
    (("max_source_resolution", (QueryOptions.mk false true false "POST" "5m" "thanos"
        [("X-Trace", "on")]).maxSourceResolution) ∈
      (QueryOptions.mk false true false "POST" "5m" "thanos" [("X-Trace", "on")]).addTo [] ↔
      (QueryOptions.mk false true false "POST" "5m" "thanos"
        [("X-Trace", "on")]).maxSourceResolution ≠ "") ∧
    formatBool true = "true" ∧ formatBool false = "false" ∧
    ((QueryOptions.mk false true false "POST" "5m" "thanos" [("X-Trace", "on")]).addTo []).all
      (fun kv =>
        kv.1 == "dedup" || kv.1 == "max_source_resolution" ||
        kv.1 == "engine" || kv.1 == "partial_response") = true :=
  queryOptions_addTo_spec (QueryOptions.mk false true false "POST" "5m" "thanos"
    [("X-Trace", "on")])

/-- Counterexample to claim C7 as stated: jitter enabled with the strictly
negative delay `-1` is not rejected by validation — `Config.Validate` only
tests `JitterDelay == 0`, so the non-positive delay passes. -/
theorem config_negative_jitter_accepted :
    negJitterConfig.enableJitter = true ∧ negJitterConfig.jitterDelay < 0 ∧
    Config.validate (fun _ => true) (fun _ => true) negJitterConfig = none := by
  refine ⟨rfl, by decide, rfl⟩

/-- Helper for C7: the backpressure validation block never produces the
jitter-delay error. -/
lemma validateBackpressure_ne_jitter (pk uk : String → Bool) (c : Config) :
    Config.validateBackpressure pk uk c ≠ some ConfigError.jitterDelayRequired := by
  unfold Config.validateBackpressure
  split
  · simp
  · split <;> [simp; skip]
    split <;> [simp; skip]
    split <;> [simp; skip]
    split <;> [simp; skip]
    split <;> simp

/-- Claim C7 as amended: validation fails with the jitter-delay
configuration error exactly when the jitter stage is enabled and
`JitterDelay` equals zero; a negative delay is not caught by this check. -/
theorem config_jitter_check_zero_only (pk uk : String → Bool) (c : Config) :
    Config.validate pk uk c = some ConfigError.jitterDelayRequired ↔
      c.enableJitter = true ∧ c.jitterDelay = 0 := by
  unfold Config.validate
  split
  · rename_i h
    constructor
    · intro _
      exact ⟨h.1, h.2⟩
    · intro _
      rfl
  · rename_i h
    constructor
    · intro hv
      exfalso
      revert hv
      split
      · rename_i e heq
        split at heq
        · intro hv
          apply validateBackpressure_ne_jitter pk uk c
          rw [heq]
          injection hv with hv
          rw [hv]
        · exact fun hv => by simp at heq
      · split <;> simp
    · rintro ⟨h1, h2⟩
      exact absurd ⟨h1, h2⟩ h

/-- Claim C8: the Jitterer with a configured delay of zero performs no sleep
(the slept duration is 0 and the random source is never consulted) and
returns exactly the wrapped stage's result, for both the instant and the
range method. -/
theorem jitter_zero_delay_noop (delay : Int) (randIntn : Int → Int)
    (ci : InstantRequest → Option GoError) (cr : RangeRequest → Option GoError)
    (ri : InstantRequest) (rr : RangeRequest) (h : delay = 0) :
    Jitterer.queryInstant delay randIntn ci ri = some (0, ci ri) ∧
    Jitterer.queryRange delay randIntn cr rr = some (0, cr rr) := by
  subst h
  exact ⟨rfl, rfl⟩

/-- Witness for C8 at delay `0` with concrete wrapped stages. -/
theorem jitter_zero_delay_noop_witness :
    Jitterer.queryInstant 0 (fun _ => 3) (fun _ => some (GoError.other "boom"))
        sampleInstant = some (0, some (GoError.other "boom")) ∧
    Jitterer.queryRange 0 (fun _ => 3) (fun _ => none) sampleRange =
      some (0, none) :=
  jitter_zero_delay_noop 0 (fun _ => 3) (fun _ => some (GoError.other "boom"))
    (fun _ => none) sampleInstant sampleRange rfl

/-- Claim C9: the Observer's metric handling is not total. For every
non-nil delegated error that is not the `RequestBlockedError` variant,
`handleMetrics` hits the nil-pointer dereference of `blocked.Type` and
panics before the request counter or latency counter is touched, so
`Observer.QueryInstant` faults as well. -/
theorem observer_nonblocked_error_faults (msg queryType : String) (latMs : Nat)
    (m : ObserverMetrics) (r : InstantRequest) :
    Observer.handleMetrics (some (GoError.other msg)) latMs queryType m = none ∧
    Observer.queryInstant (fun _ => some (GoError.other msg)) latMs m r = none :=
  ⟨rfl, rfl⟩

/-- Claim C10: the Exit stage is infallible. `requestFromInstant` and
`requestFromRange` always return `(nil, nil)`, so `Exit.QueryInstant` and
`Exit.QueryRange` always return a nil error after invoking the downstream
handler with the nil request. -/
theorem exit_infallible (ri : InstantRequest) (rr : RangeRequest) :
    requestFromInstant ri = (none, none) ∧
    requestFromRange rr = (none, none) ∧
    Exit.queryInstant ri = (none, some none) ∧
    Exit.queryRange rr = (none, some none) :=
  ⟨rfl, rfl, rfl, rfl⟩
